import Mathlib

/-!
Verification of the MouseShare companion clients, a shallow embedding of
the two Python sources linux/mouseshare.py and windows/mouseshare.py.

The embedding covers the event-injection dispatcher (inject_event on both
platforms), the length-prefixed frame decoder, the TCP read loop of
tcp_client on both platforms, the disconnect transition, and the Linux
polling edge-detection loop.  Numbers follow the source: normalized
coordinates are rationals, screen geometry and key codes are integers,
wire bytes are naturals.  The JSON parser (Python json.loads) is an
external library dependency and is modelled as a parameter of type
List Nat to Option EventDict, where none models a raised decode error.
Observable side effects (device writes, cursor moves, SendInput calls,
log lines) are collected as explicit call lists.
-/

namespace MouseShare

/-- A decoded JSON event object, mirroring the dict fields that
inject_event reads via event.get.  An absent field is none; the call
sites that read numeric fields substitute the default 0, exactly as the
source does with event.get with a default argument. -/
structure EventDict where
  type : Option String
  normalizedX : Option ℚ
  normalizedY : Option ℚ
  keyCode : Option ℤ
  scrollDeltaX : Option ℚ
  scrollDeltaY : Option ℚ
deriving DecidableEq

/-- The all-absent event dictionary, a base for building test events. -/
def emptyEvent : EventDict := ⟨none, none, none, none, none, none⟩

/-- Screen geometry: the globals SCREEN_WIDTH and SCREEN_HEIGHT. -/
structure Geom where
  width : ℤ
  height : ℤ
deriving DecidableEq

/-- EDGE_THRESHOLD, 5 pixels in both sources. -/
def EDGE_THRESHOLD : ℤ := 5

/-- Python int() applied to a rational number: truncation toward zero. -/
def pyInt (q : ℚ) : ℤ := if q < 0 then ⌈q⌉ else ⌊q⌋

/-- MAC_TO_LINUX_KEYCODE from linux/mouseshare.py: Mac CGEvent virtual
keycodes to Linux evdev KEY constants (values from input-event-codes.h),
in source order. -/
def MAC_TO_LINUX_KEYCODE : List (ℤ × ℤ) := [
  -- letters A..Z
  (0, 30), (11, 48), (8, 46), (2, 32), (14, 18), (3, 33), (5, 34),
  (4, 35), (34, 23), (38, 36), (40, 37), (37, 38), (46, 50), (45, 49),
  (31, 24), (35, 25), (12, 16), (15, 19), (1, 31), (17, 20), (32, 22),
  (9, 47), (13, 17), (7, 45), (16, 21), (6, 44),
  -- number row 0..9
  (29, 11), (18, 2), (19, 3), (20, 4), (21, 5), (23, 6), (22, 7),
  (26, 8), (28, 9), (25, 10),
  -- punctuation and symbols
  (49, 57), (36, 28), (51, 14), (48, 15), (53, 1), (43, 51), (47, 52),
  (44, 53), (41, 39), (39, 40), (33, 26), (30, 27), (42, 43), (50, 41),
  (27, 12), (24, 13),
  -- modifier keys
  (56, 42), (60, 54), (59, 29), (62, 97), (58, 56), (61, 100),
  (55, 125), (54, 126), (57, 58),
  -- function keys F1..F12
  (122, 59), (120, 60), (99, 61), (118, 62), (96, 63), (97, 64),
  (98, 65), (100, 66), (101, 67), (109, 68), (103, 87), (111, 88),
  -- navigation
  (123, 105), (124, 106), (125, 108), (126, 103), (115, 102),
  (119, 107), (116, 104), (121, 109), (117, 111), (114, 110),
  -- numpad
  (71, 69), (82, 82), (83, 79), (84, 80), (85, 81), (86, 75), (87, 76),
  (88, 77), (89, 71), (91, 72), (92, 73), (65, 83), (69, 78), (78, 74),
  (67, 55), (75, 98), (76, 96)]

/-- MAC_TO_WIN_KEYCODE from windows/mouseshare.py: Mac CGEvent virtual
keycodes to Windows virtual-key codes, in source order. -/
def MAC_TO_WIN_KEYCODE : List (ℤ × ℤ) := [
  -- letters A..Z
  (0, 65), (11, 66), (8, 67), (2, 68), (14, 69), (3, 70), (5, 71),
  (4, 72), (34, 73), (38, 74), (40, 75), (37, 76), (46, 77), (45, 78),
  (31, 79), (35, 80), (12, 81), (15, 82), (1, 83), (17, 84), (32, 85),
  (9, 86), (13, 87), (7, 88), (16, 89), (6, 90),
  -- number row 0..9
  (29, 48), (18, 49), (19, 50), (20, 51), (21, 52), (23, 53), (22, 54),
  (26, 55), (28, 56), (25, 57),
  -- punctuation
  (49, 0x20), (36, 0x0D), (51, 0x08), (48, 0x09), (53, 0x1B),
  (43, 0xBC), (47, 0xBE), (44, 0xBF), (41, 0xBA), (39, 0xDE),
  (33, 0xDB), (30, 0xDD), (42, 0xDC), (50, 0xC0), (27, 0xBD),
  (24, 0xBB),
  -- modifiers
  (56, 0xA0), (60, 0xA1), (59, 0xA2), (62, 0xA3), (58, 0xA4),
  (61, 0xA5), (55, 0x5B), (54, 0x5C), (57, 0x14),
  -- function keys F1..F12
  (122, 0x70), (120, 0x71), (99, 0x72), (118, 0x73), (96, 0x74),
  (97, 0x75), (98, 0x76), (100, 0x77), (101, 0x78), (109, 0x79),
  (103, 0x7A), (111, 0x7B),
  -- navigation
  (123, 0x25), (124, 0x27), (125, 0x28), (126, 0x26), (115, 0x24),
  (119, 0x23), (116, 0x21), (121, 0x22), (117, 0x2E), (114, 0x2D),
  -- numpad
  (71, 0x90), (82, 0x60), (83, 0x61), (84, 0x62), (85, 0x63),
  (86, 0x64), (87, 0x65), (88, 0x66), (89, 0x67), (91, 0x68),
  (92, 0x69), (65, 0x6E), (69, 0x6B), (78, 0x6D), (67, 0x6A),
  (75, 0x6F), (76, 0x0D)]

/-- Observable effect of the Linux dispatcher: a uinput device.write
with an event type, a code and a value, a device.syn, a cursor warp via
xdotool or ydotool, or a log line. -/
inductive LinCall where
  | write (etype code value : ℤ)
  | syn
  | cursorMove (x y : ℤ)
  | logWarning
  | logInfo
deriving DecidableEq

/-- Observable effect of the Windows dispatcher: SetCursorPos, a
SendInput mouse event carrying its flags and wheel data, a SendInput
keyboard event, or a log line. -/
inductive WinCall where
  | setCursorPos (x y : ℤ)
  | mouseInput (flags data : ℤ)
  | keyInput (vk : ℤ) (down : Bool)
  | logWarning
  | logInfo
deriving DecidableEq

/-- The coordinate computation shared by both platforms for a mouseMove
event: read normalizedX and normalizedY with default 0, scale by the
screen size, truncate with Python int(), and clamp each axis into the
interval from 0 to size minus 1.  This is the body of
_inject_mouse_move on Linux and of the mouseMove branch on Windows. -/
def injectMouseMoveCoords (g : Geom) (e : EventDict) : ℤ × ℤ :=
  let nx := e.normalizedX.getD 0
  let ny := e.normalizedY.getD 0
  let x := pyInt (nx * (g.width : ℚ))
  let y := pyInt (ny * (g.height : ℚ))
  (max 0 (min x (g.width - 1)), max 0 (min y (g.height - 1)))

/-- inject_event from linux/mouseshare.py.  Returns the list of emitted
calls and the pair used by the caller: a flag telling the read loop to
send returnControl, and the normalized y position.  Constants: EV_KEY
is 1, EV_REL is 2, BTN_LEFT is 272, BTN_RIGHT is 273, REL_WHEEL is 8,
REL_HWHEEL is 6.  The Linux dispatcher keeps no pressed-state
bookkeeping and its returnControl branch only logs. -/
def linuxInject (g : Geom) (e : EventDict) : List LinCall × Bool × ℚ :=
  let t := e.type
  if t = some "mouseMove" then
    let c := injectMouseMoveCoords g e
    if c.1 ≤ EDGE_THRESHOLD then
      let normY : ℚ := if g.height ≠ 0 then (c.2 : ℚ) / (g.height : ℚ) else 0
      ([LinCall.cursorMove c.1 c.2], true, normY)
    else
      ([LinCall.cursorMove c.1 c.2], false, 0)
  else if t = some "leftMouseDown" then
    ([LinCall.write 1 272 1, LinCall.syn], false, 0)
  else if t = some "leftMouseUp" then
    ([LinCall.write 1 272 0, LinCall.syn], false, 0)
  else if t = some "rightMouseDown" then
    ([LinCall.write 1 273 1, LinCall.syn], false, 0)
  else if t = some "rightMouseUp" then
    ([LinCall.write 1 273 0, LinCall.syn], false, 0)
  else if t = some "keyDown" ∨ t = some "keyUp" then
    match e.keyCode with
    | none => ([], false, 0)
    | some mac =>
      match List.lookup mac MAC_TO_LINUX_KEYCODE with
      | none => ([LinCall.logWarning], false, 0)
      | some code =>
        let v : ℤ := if t = some "keyDown" then 1 else 0
        ([LinCall.write 1 code v, LinCall.syn], false, 0)
  else if t = some "scrollWheel" then
    let dx := e.scrollDeltaX.getD 0
    let dy := e.scrollDeltaY.getD 0
    ((if dy ≠ 0 then [LinCall.write 2 8 (pyInt dy)] else []) ++
     (if dx ≠ 0 then [LinCall.write 2 6 (pyInt dx)] else []) ++
     (if dy ≠ 0 ∨ dx ≠ 0 then [LinCall.syn] else []), false, 0)
  else if t = some "returnControl" then
    ([LinCall.logInfo], false, 0)
  else
    ([], false, 0)

/-- Add to the pressed set (Python set.add), keeping list order as the
deterministic stand-in for set iteration order. -/
def setAdd (s : List ℤ) (k : ℤ) : List ℤ :=
  if k ∈ s then s else s ++ [k]

/-- Remove from the pressed set (Python set.discard). -/
def setDiscard (s : List ℤ) (k : ℤ) : List ℤ :=
  s.filter (fun x => x != k)

/-- _release_all_keys from windows/mouseshare.py: a keyboard key-up for
every member of the pressed set, then a left mouse up if the synthetic
slot -1 is present, a right mouse up if -2 is present, a log line when
anything was pressed, and finally the cleared set.  Flag constants:
MOUSEEVENTF_LEFTUP is 4 and MOUSEEVENTF_RIGHTUP is 16. -/
def releaseAllKeys (pressed : List ℤ) : List WinCall × List ℤ :=
  ((pressed.map fun vk => WinCall.keyInput vk false) ++
   (if (-1 : ℤ) ∈ pressed then [WinCall.mouseInput 4 0] else []) ++
   (if (-2 : ℤ) ∈ pressed then [WinCall.mouseInput 16 0] else []) ++
   (if pressed ≠ [] then [WinCall.logInfo] else []), [])

/-- inject_event from windows/mouseshare.py.  Takes the pressed-key set
_pressed_keys and returns the new pressed set, the emitted calls and
the returned pair.  Flag constants: MOUSEEVENTF_LEFTDOWN 2, LEFTUP 4,
RIGHTDOWN 8, RIGHTUP 16, WHEEL 2048, HWHEEL 4096; WHEEL_DELTA 120. -/
def winInject (g : Geom) (pressed : List ℤ) (e : EventDict) :
    List ℤ × List WinCall × Bool × ℚ :=
  let t := e.type
  if t = some "mouseMove" then
    let c := injectMouseMoveCoords g e
    if c.1 ≤ EDGE_THRESHOLD then
      let normY : ℚ := if g.height ≠ 0 then (c.2 : ℚ) / (g.height : ℚ) else 0
      (pressed, [WinCall.setCursorPos c.1 c.2], true, normY)
    else
      (pressed, [WinCall.setCursorPos c.1 c.2], false, 0)
  else if t = some "leftMouseDown" then
    (setAdd pressed (-1), [WinCall.mouseInput 2 0], false, 0)
  else if t = some "leftMouseUp" then
    (setDiscard pressed (-1), [WinCall.mouseInput 4 0], false, 0)
  else if t = some "rightMouseDown" then
    (setAdd pressed (-2), [WinCall.mouseInput 8 0], false, 0)
  else if t = some "rightMouseUp" then
    (setDiscard pressed (-2), [WinCall.mouseInput 16 0], false, 0)
  else if t = some "keyDown" ∨ t = some "keyUp" then
    match e.keyCode with
    | none => (pressed, [], false, 0)
    | some mac =>
      match List.lookup mac MAC_TO_WIN_KEYCODE with
      | none => (pressed, [WinCall.logWarning], false, 0)
      | some vk =>
        let down : Bool := t = some "keyDown"
        ((if down then setAdd pressed vk else setDiscard pressed vk),
         [WinCall.keyInput vk down], false, 0)
  else if t = some "scrollWheel" then
    let dx := e.scrollDeltaX.getD 0
    let dy := e.scrollDeltaY.getD 0
    (pressed,
     (if dy ≠ 0 then [WinCall.mouseInput 2048 (pyInt (dy * 120))] else []) ++
     (if dx ≠ 0 then [WinCall.mouseInput 4096 (pyInt (dx * 120))] else []),
     false, 0)
  else if t = some "returnControl" then
    let r := releaseAllKeys pressed
    (r.2, r.1 ++ [WinCall.logInfo], false, 0)
  else
    (pressed, [], false, 0)

/-- The 4-byte big-endian unsigned header value, as computed by
struct.unpack of one exclamation point followed by a capital i. -/
def be32 (b0 b1 b2 b3 : ℕ) : ℕ :=
  ((b0 * 256 + b1) * 256 + b2) * 256 + b3

/-- Result of decoding one frame from the front of the byte stream. -/
inductive DecodeOutcome where
  | closed
  | violation (len : ℕ)
  | frame (payload rest : List ℕ)
deriving DecidableEq

/-- One iteration of the frame-decoding part of the read loop shared by
both tcp_client implementations: _read_exact of 4 header bytes (end of
stream raises ConnectionError, modelled as closed), the length check
that breaks the loop when the length is 0 or above 1000000, then
_read_exact of the payload bytes. -/
def decodeFrame (s : List ℕ) : DecodeOutcome :=
  match s with
  | b0 :: b1 :: b2 :: b3 :: rest =>
    let L := be32 b0 b1 b2 b3
    if L = 0 ∨ L > 1000000 then DecodeOutcome.violation L
    else if rest.length < L then DecodeOutcome.closed
    else DecodeOutcome.frame (rest.take L) (rest.drop L)
  | _ => DecodeOutcome.closed

/-- How one pass of the read loop ended: the stream ran out inside
_read_exact (ConnectionError), the length check failed (the break on an
invalid message length), or json.loads raised on a malformed payload
(caught only by the generic exception handler outside the loop). -/
inductive LoopExit where
  | connectionClosed
  | protocolViolation
  | decodeError
deriving DecidableEq

/-- State threaded through the Linux read loop: the set of key and
button codes currently written down on the uinput device (the physical
down state, since the Linux source keeps no pressed-set variable), and
the number of returnControl frames written back to the Mac. -/
structure LinuxLoopState where
  deviceDown : List ℤ
  sentReturns : ℕ
deriving DecidableEq

/-- Effect of one Linux call on the set of codes physically down on the
virtual device: an EV_KEY write with value 1 presses the code, an
EV_KEY write with value 0 releases it, everything else is neutral. -/
def applyLinCall (down : List ℤ) (c : LinCall) : List ℤ :=
  match c with
  | LinCall.write 1 code 1 => setAdd down code
  | LinCall.write 1 code 0 => setDiscard down code
  | _ => down

/-- Apply one decoded event inside the Linux read loop: run
inject_event, fold its device writes into the physical down set, and
count one sent returnControl frame when the flag is true. -/
def linuxApplyEvent (g : Geom) (e : EventDict) (st : LinuxLoopState) :
    LinuxLoopState :=
  let r := linuxInject g e
  ⟨r.1.foldl applyLinCall st.deviceDown,
   if r.2.1 then st.sentReturns + 1 else st.sentReturns⟩

/-- A helper fact for termination: a successfully decoded frame
strictly shrinks the stream, since the header takes 4 bytes and the
length check guarantees a nonzero payload. -/
theorem decodeFrame_rest_length_lt {s p rest : List ℕ}
    (h : decodeFrame s = DecodeOutcome.frame p rest) :
    rest.length < s.length := by
  match s with
  | [] => simp [decodeFrame] at h
  | [b0] => simp [decodeFrame] at h
  | [b0, b1] => simp [decodeFrame] at h
  | [b0, b1, b2] => simp [decodeFrame] at h
  | b0 :: b1 :: b2 :: b3 :: tail =>
    simp only [decodeFrame] at h
    split at h
    · exact absurd h (by simp)
    · split at h
      · exact absurd h (by simp)
      · rename_i hz _
        push_neg at hz
        simp only [DecodeOutcome.frame.injEq] at h
        have : rest.length = tail.length - be32 b0 b1 b2 b3 := by
          rw [← h.2, List.length_drop]
        simp only [List.length_cons, this]
        omega

/-- The read loop of tcp_client from linux/mouseshare.py, over a finite
byte stream.  The parse parameter models json.loads applied to the
decoded UTF-8 payload: none models a raised decode error, which the
inner loop does not catch.  On a should-return flag the loop writes a
returnControl frame and continues reading. -/
def linuxReadLoop (parse : List ℕ → Option EventDict) (g : Geom)
    (s : List ℕ) (st : LinuxLoopState) : LoopExit × LinuxLoopState :=
  match h : decodeFrame s with
  | DecodeOutcome.closed => (LoopExit.connectionClosed, st)
  | DecodeOutcome.violation _ => (LoopExit.protocolViolation, st)
  | DecodeOutcome.frame p rest =>
    match parse p with
    | none => (LoopExit.decodeError, st)
    | some e => linuxReadLoop parse g rest (linuxApplyEvent g e st)
termination_by s.length
decreasing_by exact decodeFrame_rest_length_lt h

/-- What one connection attempt of the Linux tcp_client leaves behind
after its read loop ends: the exception handlers only log, then the
function sleeps RECONNECT_DELAY and retries, so no release is issued,
no socket close is called, and the device down set is whatever the
loop left. -/
structure LinuxSessionResult where
  exit : LoopExit
  deviceDown : List ℤ
  sentReturns : ℕ
  releaseIssued : Bool
  socketClosed : Bool
deriving DecidableEq

/-- One connection attempt of the Linux tcp_client: run the read loop,
then take the disconnect path, which performs no injection call and no
explicit socket close before the reconnect sleep. -/
def linuxSession (parse : List ℕ → Option EventDict) (g : Geom)
    (s : List ℕ) (st : LinuxLoopState) : LinuxSessionResult :=
  let r := linuxReadLoop parse g s st
  ⟨r.1, r.2.deviceDown, r.2.sentReturns, false, false⟩

/-- State threaded through the Windows read loop: the _pressed_keys set
and the number of returnControl frames sent. -/
structure WinLoopState where
  pressed : List ℤ
  sentReturns : ℕ
deriving DecidableEq

/-- Apply one decoded event inside the Windows read loop. -/
def winApplyEvent (g : Geom) (e : EventDict) (st : WinLoopState) :
    WinLoopState :=
  let r := winInject g st.pressed e
  ⟨r.1, if r.2.2.1 then st.sentReturns + 1 else st.sentReturns⟩

/-- The read loop of tcp_client from windows/mouseshare.py over a
finite byte stream, with json.loads as a parameter as on Linux. -/
def winReadLoop (parse : List ℕ → Option EventDict) (g : Geom)
    (s : List ℕ) (st : WinLoopState) : LoopExit × WinLoopState :=
  match h : decodeFrame s with
  | DecodeOutcome.closed => (LoopExit.connectionClosed, st)
  | DecodeOutcome.violation _ => (LoopExit.protocolViolation, st)
  | DecodeOutcome.frame p rest =>
    match parse p with
    | none => (LoopExit.decodeError, st)
    | some e => winReadLoop parse g rest (winApplyEvent g e st)
termination_by s.length
decreasing_by exact decodeFrame_rest_length_lt h

/-- What one connection attempt of the Windows tcp_client leaves behind
after its read loop ends, whatever the cause: the finally block runs
_release_all_keys and closes the writer before the reconnect sleep. -/
structure WinSessionResult where
  exit : LoopExit
  pressedBeforeRelease : List ℤ
  releaseCalls : List WinCall
  pressedFinal : List ℤ
  socketClosed : Bool
  sentReturns : ℕ
deriving DecidableEq

/-- One connection attempt of the Windows tcp_client: run the read
loop, then the finally block, which force-releases every pressed code
and closes the socket. -/
def winSession (parse : List ℕ → Option EventDict) (g : Geom)
    (s : List ℕ) (st : WinLoopState) : WinSessionResult :=
  let r := winReadLoop parse g s st
  let rel := releaseAllKeys r.2.pressed
  ⟨r.1, r.2.pressed, rel.1, rel.2, true, r.2.sentReturns⟩

/-- _edge_detection_loop from linux/mouseshare.py, over a finite list
of polled cursor positions (none models a failed position read).  The
loop sends one returnControl frame when a position within the edge
threshold is seen, sets its stop event and returns, so it counts the
frames it sends.  It is defined by the source but never started by
tcp_client. -/
def edgeDetectionLoop (polls : List (Option (ℤ × ℤ))) : ℕ :=
  match polls with
  | [] => 0
  | pos :: rest =>
    match pos with
    | some c => if c.1 ≤ EDGE_THRESHOLD then 1 else edgeDetectionLoop rest
    | none => edgeDetectionLoop rest

/-! Concrete fixtures used by witnesses and counterexamples: a
1920 by 1080 screen, a handful of events, and a concrete stand-in for
json.loads that maps chosen one-byte payloads to those events. -/

/-- The screen geometry of the examples in the specification. -/
def g1920 : Geom := ⟨1920, 1080⟩

/-- mouseMove with normalizedX 0 and normalizedY one half. -/
def edgeMoveEvent : EventDict :=
  { emptyEvent with
    type := some "mouseMove", normalizedX := some 0, normalizedY := some (1/2) }

/-- mouseMove with normalizedX one half and normalizedY one half. -/
def centerMoveEvent : EventDict :=
  { emptyEvent with
    type := some "mouseMove", normalizedX := some (1/2), normalizedY := some (1/2) }

/-- mouseMove with normalizedX 1 over 1024, whose product with 1920 is
15 over 8: truncation and rounding disagree on it. -/
def smallMoveEvent : EventDict :=
  { emptyEvent with
    type := some "mouseMove", normalizedX := some (1/1024), normalizedY := some 0 }

/-- keyDown for Mac keycode 0, the letter A. -/
def keyDownAEvent : EventDict :=
  { emptyEvent with type := some "keyDown", keyCode := some 0 }

/-- keyDown for Mac keycode 9999, absent from both mapping tables. -/
def keyDown9999Event : EventDict :=
  { emptyEvent with type := some "keyDown", keyCode := some 9999 }

/-- A returnControl event as received from the Mac. -/
def returnEvent : EventDict :=
  { emptyEvent with type := some "returnControl" }

/-- A concrete instance of the json.loads parameter for the stream
fixtures: payload byte 1 decodes to the edge mouseMove, byte 2 to the
keyDown of A, byte 3 to returnControl, and anything else is malformed
JSON, modelled as none. -/
def parseStub : List ℕ → Option EventDict := fun p =>
  if p = [1] then some edgeMoveEvent
  else if p = [2] then some keyDownAEvent
  else if p = [3] then some returnEvent
  else none

/-! Unfolding lemmas for the two read loops, one per decode outcome.
They let concrete streams be evaluated frame by frame and are shared by
several claims below. -/

/-- A well-formed frame at the front of the stream decodes to its
payload and the remainder. -/
theorem decodeFrame_frame (b0 b1 b2 b3 : ℕ) (p rest : List ℕ)
    (hlen : be32 b0 b1 b2 b3 = p.length) (hnz : p.length ≠ 0)
    (hcap : p.length ≤ 1000000) :
    decodeFrame (b0 :: b1 :: b2 :: b3 :: (p ++ rest)) = DecodeOutcome.frame p rest := by
  simp only [decodeFrame, hlen]
  rw [if_neg (by omega), if_neg (by rw [List.length_append]; omega),
    List.take_left, List.drop_left]

/-- One successful step of the Linux read loop. -/
theorem linuxReadLoop_frame_step (parse : List ℕ → Option EventDict) (g : Geom)
    (b0 b1 b2 b3 : ℕ) (p rest : List ℕ) (e : EventDict) (st : LinuxLoopState)
    (hlen : be32 b0 b1 b2 b3 = p.length) (hnz : p.length ≠ 0)
    (hcap : p.length ≤ 1000000) (hp : parse p = some e) :
    linuxReadLoop parse g (b0 :: b1 :: b2 :: b3 :: (p ++ rest)) st
      = linuxReadLoop parse g rest (linuxApplyEvent g e st) := by
  have hd := decodeFrame_frame b0 b1 b2 b3 p rest hlen hnz hcap
  rw [linuxReadLoop.eq_def]
  split
  · rename_i h; rw [hd] at h; cases h
  · rename_i h; rw [hd] at h; cases h
  · rename_i p2 rest2 h
    rw [hd] at h
    injection h with h1 h2
    subst h1; subst h2
    rw [hp]

/-- A frame whose payload is not valid JSON aborts the Linux read loop
with a decode error, leaving the loop state untouched. -/
theorem linuxReadLoop_decodeError_step (parse : List ℕ → Option EventDict) (g : Geom)
    (b0 b1 b2 b3 : ℕ) (p rest : List ℕ) (st : LinuxLoopState)
    (hlen : be32 b0 b1 b2 b3 = p.length) (hnz : p.length ≠ 0)
    (hcap : p.length ≤ 1000000) (hp : parse p = none) :
    linuxReadLoop parse g (b0 :: b1 :: b2 :: b3 :: (p ++ rest)) st
      = (LoopExit.decodeError, st) := by
  have hd := decodeFrame_frame b0 b1 b2 b3 p rest hlen hnz hcap
  rw [linuxReadLoop.eq_def]
  split
  · rename_i h; rw [hd] at h; cases h
  · rename_i h; rw [hd] at h; cases h
  · rename_i p2 rest2 h
    rw [hd] at h
    injection h with h1 h2
    subst h1; subst h2
    rw [hp]

/-- A header outside the accepted length range makes the Linux read
loop break out with a protocol violation, whatever follows it. -/
theorem linuxReadLoop_violation (parse : List ℕ → Option EventDict) (g : Geom)
    (b0 b1 b2 b3 : ℕ) (rest : List ℕ) (st : LinuxLoopState)
    (hbad : be32 b0 b1 b2 b3 = 0 ∨ be32 b0 b1 b2 b3 > 1000000) :
    linuxReadLoop parse g (b0 :: b1 :: b2 :: b3 :: rest) st
      = (LoopExit.protocolViolation, st) := by
  have hd : decodeFrame (b0 :: b1 :: b2 :: b3 :: rest)
      = DecodeOutcome.violation (be32 b0 b1 b2 b3) := by
    simp only [decodeFrame, if_pos hbad]
  rw [linuxReadLoop.eq_def]
  split
  · rename_i h; rw [hd] at h; cases h
  · rfl
  · rename_i p2 rest2 h; rw [hd] at h; cases h

/-- An exhausted stream ends the Linux read loop as a closed connection. -/
theorem linuxReadLoop_nil (parse : List ℕ → Option EventDict) (g : Geom)
    (st : LinuxLoopState) :
    linuxReadLoop parse g [] st = (LoopExit.connectionClosed, st) := by
  rw [linuxReadLoop.eq_def]
  split
  · rfl
  · rename_i h; cases h
  · rename_i p2 rest2 h; cases h

/-- One successful step of the Windows read loop. -/
theorem winReadLoop_frame_step (parse : List ℕ → Option EventDict) (g : Geom)
    (b0 b1 b2 b3 : ℕ) (p rest : List ℕ) (e : EventDict) (st : WinLoopState)
    (hlen : be32 b0 b1 b2 b3 = p.length) (hnz : p.length ≠ 0)
    (hcap : p.length ≤ 1000000) (hp : parse p = some e) :
    winReadLoop parse g (b0 :: b1 :: b2 :: b3 :: (p ++ rest)) st
      = winReadLoop parse g rest (winApplyEvent g e st) := by
  have hd := decodeFrame_frame b0 b1 b2 b3 p rest hlen hnz hcap
  rw [winReadLoop.eq_def]
  split
  · rename_i h; rw [hd] at h; cases h
  · rename_i h; rw [hd] at h; cases h
  · rename_i p2 rest2 h
    rw [hd] at h
    injection h with h1 h2
    subst h1; subst h2
    rw [hp]

/-- A frame whose payload is not valid JSON aborts the Windows read
loop with a decode error, leaving the loop state untouched. -/
theorem winReadLoop_decodeError_step (parse : List ℕ → Option EventDict) (g : Geom)
    (b0 b1 b2 b3 : ℕ) (p rest : List ℕ) (st : WinLoopState)
    (hlen : be32 b0 b1 b2 b3 = p.length) (hnz : p.length ≠ 0)
    (hcap : p.length ≤ 1000000) (hp : parse p = none) :
    winReadLoop parse g (b0 :: b1 :: b2 :: b3 :: (p ++ rest)) st
      = (LoopExit.decodeError, st) := by
  have hd := decodeFrame_frame b0 b1 b2 b3 p rest hlen hnz hcap
  rw [winReadLoop.eq_def]
  split
  · rename_i h; rw [hd] at h; cases h
  · rename_i h; rw [hd] at h; cases h
  · rename_i p2 rest2 h
    rw [hd] at h
    injection h with h1 h2
    subst h1; subst h2
    rw [hp]

/-- A header outside the accepted length range makes the Windows read
loop break out with a protocol violation, whatever follows it. -/
theorem winReadLoop_violation (parse : List ℕ → Option EventDict) (g : Geom)
    (b0 b1 b2 b3 : ℕ) (rest : List ℕ) (st : WinLoopState)
    (hbad : be32 b0 b1 b2 b3 = 0 ∨ be32 b0 b1 b2 b3 > 1000000) :
    winReadLoop parse g (b0 :: b1 :: b2 :: b3 :: rest) st
      = (LoopExit.protocolViolation, st) := by
  have hd : decodeFrame (b0 :: b1 :: b2 :: b3 :: rest)
      = DecodeOutcome.violation (be32 b0 b1 b2 b3) := by
    simp only [decodeFrame, if_pos hbad]
  rw [winReadLoop.eq_def]
  split
  · rename_i h; rw [hd] at h; cases h
  · rfl
  · rename_i p2 rest2 h; rw [hd] at h; cases h

/-- An exhausted stream ends the Windows read loop as a closed
connection. -/
theorem winReadLoop_nil (parse : List ℕ → Option EventDict) (g : Geom)
    (st : WinLoopState) :
    winReadLoop parse g [] st = (LoopExit.connectionClosed, st) := by
  rw [winReadLoop.eq_def]
  split
  · rfl
  · rename_i h; cases h
  · rename_i p2 rest2 h; cases h

/-! Evaluation lemmas for the fixtures. -/

/-- The edge mouseMove on the 1920 by 1080 screen: the cursor is warped
to pixel 0 and 540 and the dispatcher asks for a returnControl with
normalized y one half. -/
theorem linuxInject_edgeMove :
    linuxInject g1920 edgeMoveEvent = ([LinCall.cursorMove 0 540], true, 1/2) := by
  norm_num [linuxInject, injectMouseMoveCoords, edgeMoveEvent, emptyEvent, g1920,
    pyInt, EDGE_THRESHOLD]

/-- The centre mouseMove on the 1920 by 1080 screen: pixel 960 and 540,
no handback. -/
theorem linuxInject_centerMove :
    linuxInject g1920 centerMoveEvent = ([LinCall.cursorMove 960 540], false, 0) := by
  norm_num [linuxInject, injectMouseMoveCoords, centerMoveEvent, emptyEvent, g1920,
    pyInt, EDGE_THRESHOLD]

/-- Windows version of the edge mouseMove evaluation. -/
theorem winInject_edgeMove (pressed : List ℤ) :
    winInject g1920 pressed edgeMoveEvent
      = (pressed, [WinCall.setCursorPos 0 540], true, 1/2) := by
  norm_num [winInject, injectMouseMoveCoords, edgeMoveEvent, emptyEvent, g1920,
    pyInt, EDGE_THRESHOLD]

/-- Windows version of the centre mouseMove evaluation. -/
theorem winInject_centerMove (pressed : List ℤ) :
    winInject g1920 pressed centerMoveEvent
      = (pressed, [WinCall.setCursorPos 960 540], false, 0) := by
  norm_num [winInject, injectMouseMoveCoords, centerMoveEvent, emptyEvent, g1920,
    pyInt, EDGE_THRESHOLD]

/-- The Linux dispatcher on keyDown of Mac code 0: one press of evdev
code 30 and a syn. -/
theorem linuxInject_keyDownA (g : Geom) :
    linuxInject g keyDownAEvent = ([LinCall.write 1 30 1, LinCall.syn], false, 0) := rfl

/-- The Linux dispatcher on returnControl: a log line and nothing else,
for any geometry. -/
theorem linuxInject_returnControl (g : Geom) :
    linuxInject g returnEvent = ([LinCall.logInfo], false, 0) := rfl

/-- The Windows dispatcher on returnControl: the release calls of
_release_all_keys, a log line, and a cleared pressed set. -/
theorem winInject_returnControl (g : Geom) (pressed : List ℤ) :
    winInject g pressed returnEvent
      = ([], (releaseAllKeys pressed).1 ++ [WinCall.logInfo], false, 0) := rfl

/-- Applying the edge mouseMove in the Linux loop leaves the device
down set alone and counts one sent returnControl. -/
theorem linuxApplyEvent_edgeMove (st : LinuxLoopState) :
    linuxApplyEvent g1920 edgeMoveEvent st = ⟨st.deviceDown, st.sentReturns + 1⟩ := by
  unfold linuxApplyEvent
  rw [linuxInject_edgeMove]
  rfl

/-- Applying the keyDown of A in the Linux loop presses evdev code 30
on the device and sends nothing. -/
theorem linuxApplyEvent_keyDownA (g : Geom) (st : LinuxLoopState) :
    linuxApplyEvent g keyDownAEvent st = ⟨setAdd st.deviceDown 30, st.sentReturns⟩ := rfl

/-- Applying returnControl in the Linux loop changes nothing at all:
no call touches the device. -/
theorem linuxApplyEvent_return (g : Geom) (st : LinuxLoopState) :
    linuxApplyEvent g returnEvent st = st := rfl

/-- Applying the edge mouseMove in the Windows loop leaves the pressed
set alone and counts one sent returnControl. -/
theorem winApplyEvent_edgeMove (st : WinLoopState) :
    winApplyEvent g1920 edgeMoveEvent st = ⟨st.pressed, st.sentReturns + 1⟩ := by
  unfold winApplyEvent
  rw [winInject_edgeMove]
  rfl

/-- A released key is offered a key-up by _release_all_keys: membership
in the emitted call list, first append slot. -/
theorem releaseAllKeys_mem_key (pressed : List ℤ) (vk : ℤ) (h : vk ∈ pressed) :
    WinCall.keyInput vk false ∈ (releaseAllKeys pressed).1 := by
  unfold releaseAllKeys
  simp only [List.mem_append]
  exact Or.inl (Or.inl (Or.inl (List.mem_map_of_mem _ h)))

/-- The left-button slot gets a mouse-up from _release_all_keys. -/
theorem releaseAllKeys_mem_left (pressed : List ℤ) (h : (-1 : ℤ) ∈ pressed) :
    WinCall.mouseInput 4 0 ∈ (releaseAllKeys pressed).1 := by
  unfold releaseAllKeys
  simp only [List.mem_append]
  refine Or.inl (Or.inl (Or.inr ?_))
  rw [if_pos h]
  exact List.mem_singleton_self _

/-- The right-button slot gets a mouse-up from _release_all_keys. -/
theorem releaseAllKeys_mem_right (pressed : List ℤ) (h : (-2 : ℤ) ∈ pressed) :
    WinCall.mouseInput 16 0 ∈ (releaseAllKeys pressed).1 := by
  unfold releaseAllKeys
  simp only [List.mem_append]
  refine Or.inl (Or.inr ?_)
  rw [if_pos h]
  exact List.mem_singleton_self _

/-! The claims. -/

/-- Claim C1, amended.  On Windows, a received returnControl event runs
_release_all_keys: the pressed set is cleared, every previously pressed
code gets a keyboard release, the synthetic button slots -1 and -2 get
mouse-up events when present, and a second returnControl in a row also
leaves the set empty.  On Linux, inject_event keeps no pressed state and
its returnControl branch only logs, issuing no release call at all. -/
theorem claim_C1_thm :
    (∀ (g : Geom) (pressed : List ℤ),
      (winInject g pressed returnEvent).1 = [] ∧
      (∀ vk ∈ pressed, WinCall.keyInput vk false ∈ (winInject g pressed returnEvent).2.1) ∧
      ((-1 : ℤ) ∈ pressed → WinCall.mouseInput 4 0 ∈ (winInject g pressed returnEvent).2.1) ∧
      ((-2 : ℤ) ∈ pressed → WinCall.mouseInput 16 0 ∈ (winInject g pressed returnEvent).2.1) ∧
      (winInject g (winInject g pressed returnEvent).1 returnEvent).1 = []) ∧
    (∀ g : Geom, linuxInject g returnEvent = ([LinCall.logInfo], false, 0)) := by
  constructor
  · intro g pressed
    refine ⟨rfl, ?_, ?_, ?_, rfl⟩
    · intro vk hvk
      show WinCall.keyInput vk false ∈ (releaseAllKeys pressed).1 ++ [WinCall.logInfo]
      exact List.mem_append_left _ (releaseAllKeys_mem_key pressed vk hvk)
    · intro hvk
      show WinCall.mouseInput 4 0 ∈ (releaseAllKeys pressed).1 ++ [WinCall.logInfo]
      exact List.mem_append_left _ (releaseAllKeys_mem_left pressed hvk)
    · intro hvk
      show WinCall.mouseInput 16 0 ∈ (releaseAllKeys pressed).1 ++ [WinCall.logInfo]
      exact List.mem_append_left _ (releaseAllKeys_mem_right pressed hvk)
  · intro g
    exact linuxInject_returnControl g

/-- Claim C1, witness: the Windows part at the concrete pressed set
holding key 30 and the left-button slot. -/
theorem claim_C1_wit :
    (winInject g1920 [30, -1] returnEvent).1 = [] ∧
    WinCall.keyInput 30 false ∈ (winInject g1920 [30, -1] returnEvent).2.1 ∧
    WinCall.mouseInput 4 0 ∈ (winInject g1920 [30, -1] returnEvent).2.1 ∧
    linuxInject g1920 returnEvent = ([LinCall.logInfo], false, 0) :=
  ⟨(claim_C1_thm.1 g1920 [30, -1]).1,
   (claim_C1_thm.1 g1920 [30, -1]).2.1 30 (by decide),
   (claim_C1_thm.1 g1920 [30, -1]).2.2.1 (by decide),
   claim_C1_thm.2 g1920⟩

/-- Claim C1, counterexample to the claim as stated: on Linux, after a
keyDown of Mac code 0 the virtual device has evdev code 30 down, and a
received returnControl leaves it down — no physical release is issued
and the down set is not empty afterwards. -/
theorem claim_C1_cex :
    linuxApplyEvent g1920 returnEvent (linuxApplyEvent g1920 keyDownAEvent ⟨[], 0⟩)
      = ⟨[30], 0⟩ ∧
    ((linuxApplyEvent g1920 returnEvent
        (linuxApplyEvent g1920 keyDownAEvent ⟨[], 0⟩)).deviceDown ≠ []) := by
  constructor
  · rfl
  · intro hcontra
    simp only [linuxApplyEvent_keyDownA, linuxApplyEvent_return] at hcontra
    cases hcontra

/-- Claim C2, amended.  On Windows, every exit of the read loop runs
the finally block: the pressed set is force-released (a key-up for each
member) and cleared, and the socket is closed, before the reconnect
sleep.  On Linux, the disconnect path issues no release and no close:
the device down set is exactly what the read loop left. -/
theorem claim_C2_thm :
    (∀ (parse : List ℕ → Option EventDict) (g : Geom) (s : List ℕ) (st : WinLoopState),
      (winSession parse g s st).pressedFinal = [] ∧
      (winSession parse g s st).socketClosed = true ∧
      (∀ vk ∈ (winSession parse g s st).pressedBeforeRelease,
        WinCall.keyInput vk false ∈ (winSession parse g s st).releaseCalls)) ∧
    (∀ (parse : List ℕ → Option EventDict) (g : Geom) (s : List ℕ) (st : LinuxLoopState),
      (linuxSession parse g s st).releaseIssued = false ∧
      (linuxSession parse g s st).socketClosed = false ∧
      (linuxSession parse g s st).deviceDown
        = (linuxReadLoop parse g s st).2.deviceDown) := by
  constructor
  · intro parse g s st
    refine ⟨rfl, rfl, ?_⟩
    intro vk hvk
    exact releaseAllKeys_mem_key _ vk hvk
  · intro parse g s st
    exact ⟨rfl, rfl, rfl⟩

/-- Claim C2, witness: the Windows session on an immediately exhausted
stream with key 30 pressed releases it, clears the set and closes the
socket; the Linux session performs neither. -/
theorem claim_C2_wit :
    (winSession parseStub g1920 [] ⟨[30], 0⟩).pressedFinal = [] ∧
    (winSession parseStub g1920 [] ⟨[30], 0⟩).socketClosed = true ∧
    WinCall.keyInput 30 false ∈ (winSession parseStub g1920 [] ⟨[30], 0⟩).releaseCalls ∧
    (linuxSession parseStub g1920 [] ⟨[30], 0⟩).releaseIssued = false ∧
    (linuxSession parseStub g1920 [] ⟨[30], 0⟩).socketClosed = false := by
  have h1 := claim_C2_thm.1 parseStub g1920 [] ⟨[30], 0⟩
  have h2 := claim_C2_thm.2 parseStub g1920 [] ⟨[30], 0⟩
  refine ⟨h1.1, h1.2.1, ?_, h2.1, h2.2.1⟩
  apply h1.2.2 30
  show (30 : ℤ) ∈ (winReadLoop parseStub g1920 [] ⟨[30], 0⟩).2.pressed
  rw [winReadLoop_nil]
  decide

/-- Claim C2, counterexample to the claim as stated: on Linux a
connection that delivers a keyDown of Mac code 0 and then closes leaves
the session Disconnected with evdev code 30 still physically down,
no release issued and no socket close called. -/
theorem claim_C2_cex :
    linuxSession parseStub g1920 [0, 0, 0, 1, 2] ⟨[], 0⟩
      = ⟨LoopExit.connectionClosed, [30], 0, false, false⟩ ∧
    ((linuxSession parseStub g1920 [0, 0, 0, 1, 2] ⟨[], 0⟩).deviceDown ≠ []) ∧
    (linuxSession parseStub g1920 [0, 0, 0, 1, 2] ⟨[], 0⟩).releaseIssued = false := by
  have hloop : linuxReadLoop parseStub g1920 [0, 0, 0, 1, 2] ⟨[], 0⟩
      = (LoopExit.connectionClosed, ⟨[30], 0⟩) := by
    calc linuxReadLoop parseStub g1920 [0, 0, 0, 1, 2] ⟨[], 0⟩
        = linuxReadLoop parseStub g1920 []
            (linuxApplyEvent g1920 keyDownAEvent ⟨[], 0⟩) :=
          linuxReadLoop_frame_step parseStub g1920 0 0 0 1 [2] [] keyDownAEvent
            ⟨[], 0⟩ (by decide) (by decide) (by decide) rfl
      _ = (LoopExit.connectionClosed, ⟨[30], 0⟩) := by
          rw [linuxReadLoop_nil]
          rfl
  have hs : linuxSession parseStub g1920 [0, 0, 0, 1, 2] ⟨[], 0⟩
      = ⟨LoopExit.connectionClosed, [30], 0, false, false⟩ := by
    show (⟨(linuxReadLoop parseStub g1920 [0, 0, 0, 1, 2] ⟨[], 0⟩).1,
      (linuxReadLoop parseStub g1920 [0, 0, 0, 1, 2] ⟨[], 0⟩).2.deviceDown,
      (linuxReadLoop parseStub g1920 [0, 0, 0, 1, 2] ⟨[], 0⟩).2.sentReturns,
      false, false⟩ : LinuxSessionResult) = _
    rw [hloop]
  refine ⟨hs, ?_, ?_⟩
  · rw [hs]
    intro hcontra
    cases hcontra
  · rw [hs]

/-- Claim C3, amended.  A frame whose payload is not well-formed JSON
is connection-fatal, not message-level recoverable: json.loads raises
inside the read loop, no handler inside the loop catches it, so the
loop aborts with the decode error, the rest of the stream is never
read, and the session transitions to Disconnected — on Windows the
finally block then closes the socket and clears pressed input. -/
theorem claim_C3_thm :
    ∀ (parse : List ℕ → Option EventDict) (g : Geom) (b0 b1 b2 b3 : ℕ)
      (p rest : List ℕ) (st : LinuxLoopState) (wst : WinLoopState),
      be32 b0 b1 b2 b3 = p.length → p.length ≠ 0 → p.length ≤ 1000000 →
      parse p = none →
      linuxReadLoop parse g (b0 :: b1 :: b2 :: b3 :: (p ++ rest)) st
        = (LoopExit.decodeError, st) ∧
      winReadLoop parse g (b0 :: b1 :: b2 :: b3 :: (p ++ rest)) wst
        = (LoopExit.decodeError, wst) ∧
      (winSession parse g (b0 :: b1 :: b2 :: b3 :: (p ++ rest)) wst).exit
        = LoopExit.decodeError ∧
      (winSession parse g (b0 :: b1 :: b2 :: b3 :: (p ++ rest)) wst).socketClosed
        = true := by
  intro parse g b0 b1 b2 b3 p rest st wst hlen hnz hcap hp
  have hl := linuxReadLoop_decodeError_step parse g b0 b1 b2 b3 p rest st hlen hnz hcap hp
  have hw := winReadLoop_decodeError_step parse g b0 b1 b2 b3 p rest wst hlen hnz hcap hp
  refine ⟨hl, hw, ?_, rfl⟩
  show (winReadLoop parse g (b0 :: b1 :: b2 :: b3 :: (p ++ rest)) wst).1
    = LoopExit.decodeError
  rw [hw]

/-- Claim C3, witness: the amended behaviour at the concrete malformed
payload byte 9, which parseStub rejects. -/
theorem claim_C3_wit :
    linuxReadLoop parseStub g1920 (0 :: 0 :: 0 :: 1 :: ([9] ++ [])) ⟨[], 0⟩
      = (LoopExit.decodeError, ⟨[], 0⟩) ∧
    winReadLoop parseStub g1920 (0 :: 0 :: 0 :: 1 :: ([9] ++ [])) ⟨[], 0⟩
      = (LoopExit.decodeError, ⟨[], 0⟩) ∧
    (winSession parseStub g1920 (0 :: 0 :: 0 :: 1 :: ([9] ++ [])) ⟨[], 0⟩).exit
      = LoopExit.decodeError ∧
    (winSession parseStub g1920 (0 :: 0 :: 0 :: 1 :: ([9] ++ [])) ⟨[], 0⟩).socketClosed
      = true :=
  claim_C3_thm parseStub g1920 0 0 0 1 [9] [] ⟨[], 0⟩ ⟨[], 0⟩
    (by decide) (by decide) (by decide) rfl

/-- Claim C3, counterexample to the claim as stated: a stream carrying
one malformed frame followed by one valid keyDown frame.  The session
does not stay connected and does not continue reading: it exits with
the decode error, the valid frame is never injected (the device down
set stays empty), and on Windows the socket is closed. -/
theorem claim_C3_cex :
    linuxReadLoop parseStub g1920 [0, 0, 0, 1, 9, 0, 0, 0, 1, 2] ⟨[], 0⟩
      = (LoopExit.decodeError, ⟨[], 0⟩) ∧
    (winSession parseStub g1920 [0, 0, 0, 1, 9, 0, 0, 0, 1, 2] ⟨[], 0⟩).exit
      = LoopExit.decodeError ∧
    (winSession parseStub g1920 [0, 0, 0, 1, 9, 0, 0, 0, 1, 2] ⟨[], 0⟩).socketClosed
      = true := by
  have hl : linuxReadLoop parseStub g1920 (0 :: 0 :: 0 :: 1 :: ([9] ++ [0, 0, 0, 1, 2]))
      ⟨[], 0⟩ = (LoopExit.decodeError, ⟨[], 0⟩) :=
    linuxReadLoop_decodeError_step parseStub g1920 0 0 0 1 [9] [0, 0, 0, 1, 2]
      ⟨[], 0⟩ (by decide) (by decide) (by decide) rfl
  have hw : winReadLoop parseStub g1920 (0 :: 0 :: 0 :: 1 :: ([9] ++ [0, 0, 0, 1, 2]))
      ⟨[], 0⟩ = (LoopExit.decodeError, ⟨[], 0⟩) :=
    winReadLoop_decodeError_step parseStub g1920 0 0 0 1 [9] [0, 0, 0, 1, 2]
      ⟨[], 0⟩ (by decide) (by decide) (by decide) rfl
  refine ⟨hl, ?_, rfl⟩
  show (winReadLoop parseStub g1920 [0, 0, 0, 1, 9, 0, 0, 0, 1, 2] ⟨[], 0⟩).1
    = LoopExit.decodeError
  rw [show winReadLoop parseStub g1920 [0, 0, 0, 1, 9, 0, 0, 0, 1, 2] ⟨[], 0⟩
    = (LoopExit.decodeError, ⟨[], 0⟩) from hw]

/-- Claim C4, amended.  The read loop has no once-per-session latch:
every edge-hitting mouseMove frame it processes sends its own
returnControl and the loop goes on reading, so a pointer lingering at
the edge yields one returnControl per received mouseMove.  Only the
polling loop _edge_detection_loop — which tcp_client never starts —
stops itself after its first fire and so sends at most one. -/
theorem claim_C4_thm :
    (∀ (parse : List ℕ → Option EventDict) (g : Geom) (b0 b1 b2 b3 : ℕ)
       (p rest : List ℕ) (e : EventDict) (st : LinuxLoopState),
      be32 b0 b1 b2 b3 = p.length → p.length ≠ 0 → p.length ≤ 1000000 →
      parse p = some e → (linuxInject g e).2.1 = true →
      linuxReadLoop parse g (b0 :: b1 :: b2 :: b3 :: (p ++ rest)) st
        = linuxReadLoop parse g rest
            ⟨(linuxInject g e).1.foldl applyLinCall st.deviceDown,
             st.sentReturns + 1⟩) ∧
    (∀ polls : List (Option (ℤ × ℤ)), edgeDetectionLoop polls ≤ 1) := by
  constructor
  · intro parse g b0 b1 b2 b3 p rest e st hlen hnz hcap hp hflag
    rw [linuxReadLoop_frame_step parse g b0 b1 b2 b3 p rest e st hlen hnz hcap hp]
    simp only [linuxApplyEvent, hflag, if_true]
  · intro polls
    induction polls with
    | nil => simp [edgeDetectionLoop]
    | cons pos rest ih =>
      cases pos with
      | none => simpa [edgeDetectionLoop] using ih
      | some c =>
        by_cases hc : c.1 ≤ EDGE_THRESHOLD
        · simp [edgeDetectionLoop, hc]
        · simpa [edgeDetectionLoop, hc] using ih

/-- Claim C4, witness: one edge mouseMove frame steps the loop and
counts one sent returnControl; a poll list that lingers at the edge
still counts at most one send from the polling loop. -/
theorem claim_C4_wit :
    linuxReadLoop parseStub g1920 (0 :: 0 :: 0 :: 1 :: ([1] ++ [])) ⟨[], 0⟩
      = linuxReadLoop parseStub g1920 []
          ⟨(linuxInject g1920 edgeMoveEvent).1.foldl applyLinCall [], 0 + 1⟩ ∧
    edgeDetectionLoop [some (0, 100), some (0, 100)] ≤ 1 :=
  ⟨claim_C4_thm.1 parseStub g1920 0 0 0 1 [1] [] edgeMoveEvent ⟨[], 0⟩
    (by decide) (by decide) (by decide) rfl (by rw [linuxInject_edgeMove]),
   claim_C4_thm.2 [some (0, 100), some (0, 100)]⟩

/-- Claim C4, counterexample to the claim as stated: in one connected
session, two successive mouseMove frames lingering at the left edge
produce two returnControl messages, on both platforms — the monitor is
not Idle after the first one. -/
theorem claim_C4_cex :
    (linuxReadLoop parseStub g1920 [0, 0, 0, 1, 1, 0, 0, 0, 1, 1] ⟨[], 0⟩).2.sentReturns
      = 2 ∧
    (winSession parseStub g1920 [0, 0, 0, 1, 1, 0, 0, 0, 1, 1] ⟨[], 0⟩).sentReturns
      = 2 := by
  have hl : linuxReadLoop parseStub g1920 [0, 0, 0, 1, 1, 0, 0, 0, 1, 1] ⟨[], 0⟩
      = (LoopExit.connectionClosed, ⟨[], 2⟩) := by
    calc linuxReadLoop parseStub g1920 [0, 0, 0, 1, 1, 0, 0, 0, 1, 1] ⟨[], 0⟩
        = linuxReadLoop parseStub g1920 [0, 0, 0, 1, 1]
            (linuxApplyEvent g1920 edgeMoveEvent ⟨[], 0⟩) :=
          linuxReadLoop_frame_step parseStub g1920 0 0 0 1 [1] [0, 0, 0, 1, 1]
            edgeMoveEvent ⟨[], 0⟩ (by decide) (by decide) (by decide) rfl
      _ = linuxReadLoop parseStub g1920 [0, 0, 0, 1, 1] ⟨[], 1⟩ := by
          rw [linuxApplyEvent_edgeMove]
      _ = linuxReadLoop parseStub g1920 []
            (linuxApplyEvent g1920 edgeMoveEvent ⟨[], 1⟩) :=
          linuxReadLoop_frame_step parseStub g1920 0 0 0 1 [1] [] edgeMoveEvent
            ⟨[], 1⟩ (by decide) (by decide) (by decide) rfl
      _ = (LoopExit.connectionClosed, ⟨[], 2⟩) := by
          rw [linuxApplyEvent_edgeMove, linuxReadLoop_nil]
  have hw : winReadLoop parseStub g1920 [0, 0, 0, 1, 1, 0, 0, 0, 1, 1] ⟨[], 0⟩
      = (LoopExit.connectionClosed, ⟨[], 2⟩) := by
    calc winReadLoop parseStub g1920 [0, 0, 0, 1, 1, 0, 0, 0, 1, 1] ⟨[], 0⟩
        = winReadLoop parseStub g1920 [0, 0, 0, 1, 1]
            (winApplyEvent g1920 edgeMoveEvent ⟨[], 0⟩) :=
          winReadLoop_frame_step parseStub g1920 0 0 0 1 [1] [0, 0, 0, 1, 1]
            edgeMoveEvent ⟨[], 0⟩ (by decide) (by decide) (by decide) rfl
      _ = winReadLoop parseStub g1920 [0, 0, 0, 1, 1] ⟨[], 1⟩ := by
          rw [winApplyEvent_edgeMove]
      _ = winReadLoop parseStub g1920 []
            (winApplyEvent g1920 edgeMoveEvent ⟨[], 1⟩) :=
          winReadLoop_frame_step parseStub g1920 0 0 0 1 [1] [] edgeMoveEvent
            ⟨[], 1⟩ (by decide) (by decide) (by decide) rfl
      _ = (LoopExit.connectionClosed, ⟨[], 2⟩) := by
          rw [winApplyEvent_edgeMove, winReadLoop_nil]
  constructor
  · rw [hl]
  · show (winReadLoop parseStub g1920 [0, 0, 0, 1, 1, 0, 0, 0, 1, 1] ⟨[], 0⟩).2.sentReturns
      = 2
    rw [hw]

/-- The mouseMove branch of the Linux dispatcher, written without the
intermediate let bindings: the cursor warp at the computed coordinates,
the handback flag from the threshold comparison, and the normalized y
with its zero-height guard. -/
theorem linuxInject_mouseMove (g : Geom) (e : EventDict)
    (h : e.type = some "mouseMove") :
    linuxInject g e
      = (if (injectMouseMoveCoords g e).1 ≤ EDGE_THRESHOLD
         then ([LinCall.cursorMove (injectMouseMoveCoords g e).1
                 (injectMouseMoveCoords g e).2], true,
               if g.height ≠ 0
               then ((injectMouseMoveCoords g e).2 : ℚ) / (g.height : ℚ) else 0)
         else ([LinCall.cursorMove (injectMouseMoveCoords g e).1
                 (injectMouseMoveCoords g e).2], false, 0)) := by
  unfold linuxInject
  rw [if_pos h]

/-- The mouseMove branch of the Windows dispatcher, written without
the intermediate let bindings. -/
theorem winInject_mouseMove (g : Geom) (pressed : List ℤ) (e : EventDict)
    (h : e.type = some "mouseMove") :
    winInject g pressed e
      = (if (injectMouseMoveCoords g e).1 ≤ EDGE_THRESHOLD
         then (pressed, [WinCall.setCursorPos (injectMouseMoveCoords g e).1
                 (injectMouseMoveCoords g e).2], true,
               if g.height ≠ 0
               then ((injectMouseMoveCoords g e).2 : ℚ) / (g.height : ℚ) else 0)
         else (pressed, [WinCall.setCursorPos (injectMouseMoveCoords g e).1
                 (injectMouseMoveCoords g e).2], false, 0)) := by
  unfold winInject
  rw [if_pos h]

/-- Modelled from the spec words for comparison with the code (claim
C5): the x coordinate the specification prescribes for a mouseMove,
x = clamp of round of nx times W into 0 to W minus 1, using rounding
rather than truncation. -/
def specMouseMoveX (nx : ℚ) (w : ℤ) : ℤ :=
  max 0 (min (round (nx * (w : ℚ))) (w - 1))

/-- Claim C5, amended.  The absolute pixel coordinates are computed
with Python int() — truncation toward zero, which agrees with floor on
nonnegative products — not with rounding: x is the clamp of the
truncation of nx times W into 0 to W minus 1, same for y, and exactly
this pair is what the cursor-move call receives on both platforms. -/
theorem claim_C5_thm :
    (∀ (g : Geom) (e : EventDict), e.type = some "mouseMove" →
      (linuxInject g e).1
        = [LinCall.cursorMove (injectMouseMoveCoords g e).1 (injectMouseMoveCoords g e).2] ∧
      ∀ pressed : List ℤ, (winInject g pressed e).2.1
        = [WinCall.setCursorPos (injectMouseMoveCoords g e).1 (injectMouseMoveCoords g e).2]) ∧
    (∀ (g : Geom) (nx ny : ℚ) (e : EventDict),
      e.normalizedX = some nx → e.normalizedY = some ny →
      injectMouseMoveCoords g e
        = (max 0 (min (pyInt (nx * (g.width : ℚ))) (g.width - 1)),
           max 0 (min (pyInt (ny * (g.height : ℚ))) (g.height - 1)))) ∧
    (∀ q : ℚ, 0 ≤ q → pyInt q = ⌊q⌋) := by
  refine ⟨?_, ?_, ?_⟩
  · intro g e h
    constructor
    · rw [linuxInject_mouseMove g e h]
      split_ifs <;> rfl
    · intro pressed
      rw [winInject_mouseMove g pressed e h]
      split_ifs <;> rfl
  · intro g nx ny e hx hy
    simp only [injectMouseMoveCoords, hx, hy, Option.getD_some]
  · intro q hq
    unfold pyInt
    rw [if_neg (not_lt.mpr hq)]

/-- Claim C5, witness: the amended formula at the centre mouseMove on
the 1920 by 1080 screen, and the floor agreement at 0. -/
theorem claim_C5_wit :
    (linuxInject g1920 centerMoveEvent).1
      = [LinCall.cursorMove (injectMouseMoveCoords g1920 centerMoveEvent).1
          (injectMouseMoveCoords g1920 centerMoveEvent).2] ∧
    injectMouseMoveCoords g1920 centerMoveEvent
      = (max 0 (min (pyInt ((1/2 : ℚ) * ((1920 : ℤ) : ℚ))) ((1920 : ℤ) - 1)),
         max 0 (min (pyInt ((1/2 : ℚ) * ((1080 : ℤ) : ℚ))) ((1080 : ℤ) - 1))) ∧
    pyInt 0 = ⌊(0 : ℚ)⌋ :=
  ⟨(claim_C5_thm.1 g1920 centerMoveEvent rfl).1,
   claim_C5_thm.2.1 g1920 (1/2) (1/2) centerMoveEvent rfl rfl,
   claim_C5_thm.2.2 0 (le_refl 0)⟩

/-- Claim C5, counterexample to the claim as stated: for normalizedX
1 over 1024 on width 1920 the product is 15 over 8; the code truncates
to x equal 1 while the round-based formula of the claim yields 2. -/
theorem claim_C5_cex :
    (injectMouseMoveCoords g1920 smallMoveEvent).1 = 1 ∧
    specMouseMoveX (1/1024) 1920 = 2 ∧
    (injectMouseMoveCoords g1920 smallMoveEvent).1 ≠ specMouseMoveX (1/1024) 1920 := by
  have h1 : (injectMouseMoveCoords g1920 smallMoveEvent).1 = 1 := by
    norm_num [injectMouseMoveCoords, smallMoveEvent, emptyEvent, g1920, pyInt]
  have h2 : specMouseMoveX (1/1024) 1920 = 2 := by
    norm_num [specMouseMoveX, round_eq]
  refine ⟨h1, h2, ?_⟩
  rw [h1, h2]
  decide

/-- Claim C6, confirmed.  For a mouseMove event, the dispatcher reports
a handback exactly when the computed clamped x is at most the edge
threshold 5; the reported normalized y is y over H, and 0 when H is 0;
on the 1920 by 1080 screen the two examples of the specification
evaluate as stated. -/
theorem claim_C6_thm :
    (∀ (g : Geom) (e : EventDict) (pressed : List ℤ), e.type = some "mouseMove" →
      ((linuxInject g e).2.1 = true ↔ (injectMouseMoveCoords g e).1 ≤ 5) ∧
      ((winInject g pressed e).2.2.1 = true ↔ (injectMouseMoveCoords g e).1 ≤ 5) ∧
      ((injectMouseMoveCoords g e).1 ≤ 5 →
        (linuxInject g e).2.2
          = (if g.height ≠ 0
             then ((injectMouseMoveCoords g e).2 : ℚ) / (g.height : ℚ) else 0) ∧
        (winInject g pressed e).2.2.2
          = (if g.height ≠ 0
             then ((injectMouseMoveCoords g e).2 : ℚ) / (g.height : ℚ) else 0))) ∧
    linuxInject g1920 edgeMoveEvent = ([LinCall.cursorMove 0 540], true, 1/2) ∧
    linuxInject g1920 centerMoveEvent = ([LinCall.cursorMove 960 540], false, 0) ∧
    (∀ pressed : List ℤ, winInject g1920 pressed edgeMoveEvent
      = (pressed, [WinCall.setCursorPos 0 540], true, 1/2)) ∧
    (∀ pressed : List ℤ, winInject g1920 pressed centerMoveEvent
      = (pressed, [WinCall.setCursorPos 960 540], false, 0)) := by
  refine ⟨?_, linuxInject_edgeMove, linuxInject_centerMove,
    winInject_edgeMove, winInject_centerMove⟩
  intro g e pressed h
  have hthr : EDGE_THRESHOLD = 5 := rfl
  refine ⟨?_, ?_, ?_⟩
  · rw [linuxInject_mouseMove g e h, hthr]
    split_ifs with hc h0
    · exact iff_of_true rfl hc
    · exact iff_of_true rfl hc
    · exact iff_of_false (by simp) hc
  · rw [winInject_mouseMove g pressed e h, hthr]
    split_ifs with hc h0
    · exact iff_of_true rfl hc
    · exact iff_of_true rfl hc
    · exact iff_of_false (by simp) hc
  · intro hle
    have hc : (injectMouseMoveCoords g e).1 ≤ EDGE_THRESHOLD := by rw [hthr]; exact hle
    constructor
    · rw [linuxInject_mouseMove g e h, if_pos hc]
    · rw [winInject_mouseMove g pressed e h, if_pos hc]

/-- Claim C6, witness: the general part at the edge mouseMove on the
1920 by 1080 screen. -/
theorem claim_C6_wit :
    ((linuxInject g1920 edgeMoveEvent).2.1 = true
      ↔ (injectMouseMoveCoords g1920 edgeMoveEvent).1 ≤ 5) ∧
    ((injectMouseMoveCoords g1920 edgeMoveEvent).1 ≤ 5 →
      (linuxInject g1920 edgeMoveEvent).2.2
        = (if g1920.height ≠ 0
           then ((injectMouseMoveCoords g1920 edgeMoveEvent).2 : ℚ) / (g1920.height : ℚ)
           else 0)) ∧
    linuxInject g1920 edgeMoveEvent = ([LinCall.cursorMove 0 540], true, 1/2) :=
  ⟨(claim_C6_thm.1 g1920 edgeMoveEvent [] rfl).1,
   fun hle => ((claim_C6_thm.1 g1920 edgeMoveEvent [] rfl).2.2 hle).1,
   claim_C6_thm.2.1⟩

/-- Claim C7, confirmed.  For a positive screen geometry and normalized
inputs in the unit interval, the computed absolute coordinates lie in
the half-open ranges 0 to width and 0 to height. -/
theorem claim_C7_thm (g : Geom) (e : EventDict) (nx ny : ℚ)
    (hw : 1 ≤ g.width) (hh : 1 ≤ g.height)
    (hx : e.normalizedX = some nx) (hy : e.normalizedY = some ny)
    (hx0 : 0 ≤ nx) (hx1 : nx ≤ 1) (hy0 : 0 ≤ ny) (hy1 : ny ≤ 1) :
    0 ≤ (injectMouseMoveCoords g e).1 ∧ (injectMouseMoveCoords g e).1 < g.width ∧
    0 ≤ (injectMouseMoveCoords g e).2 ∧ (injectMouseMoveCoords g e).2 < g.height := by
  dsimp only [injectMouseMoveCoords]
  refine ⟨le_max_left 0 _, ?_, le_max_left 0 _, ?_⟩
  · exact max_lt (by omega) (lt_of_le_of_lt (min_le_right _ _) (by omega))
  · exact max_lt (by omega) (lt_of_le_of_lt (min_le_right _ _) (by omega))

/-- Claim C7, witness: the bounds at the centre mouseMove on the 1920
by 1080 screen. -/
theorem claim_C7_wit :
    0 ≤ (injectMouseMoveCoords g1920 centerMoveEvent).1 ∧
    (injectMouseMoveCoords g1920 centerMoveEvent).1 < g1920.width ∧
    0 ≤ (injectMouseMoveCoords g1920 centerMoveEvent).2 ∧
    (injectMouseMoveCoords g1920 centerMoveEvent).2 < g1920.height :=
  claim_C7_thm g1920 centerMoveEvent (1/2) (1/2) (by decide) (by decide) rfl rfl
    (by norm_num) (by norm_num) (by norm_num) (by norm_num)

/-- Claim C8, confirmed.  A header whose big-endian value L is 0 or
above 1000000 makes the frame decoder fail with the protocol violation,
without touching any payload byte — the loop result is the same
whatever bytes follow the header — and the read loop is left toward
the reconnect path; on Windows the session then closes the socket. -/
theorem claim_C8_thm :
    ∀ (parse : List ℕ → Option EventDict) (g : Geom) (b0 b1 b2 b3 : ℕ)
      (rest rest2 : List ℕ) (st : LinuxLoopState) (wst : WinLoopState),
      (be32 b0 b1 b2 b3 = 0 ∨ be32 b0 b1 b2 b3 > 1000000) →
      decodeFrame (b0 :: b1 :: b2 :: b3 :: rest)
        = DecodeOutcome.violation (be32 b0 b1 b2 b3) ∧
      linuxReadLoop parse g (b0 :: b1 :: b2 :: b3 :: rest) st
        = (LoopExit.protocolViolation, st) ∧
      linuxReadLoop parse g (b0 :: b1 :: b2 :: b3 :: rest2) st
        = (LoopExit.protocolViolation, st) ∧
      winReadLoop parse g (b0 :: b1 :: b2 :: b3 :: rest) wst
        = (LoopExit.protocolViolation, wst) ∧
      (winSession parse g (b0 :: b1 :: b2 :: b3 :: rest) wst).exit
        = LoopExit.protocolViolation ∧
      (winSession parse g (b0 :: b1 :: b2 :: b3 :: rest) wst).socketClosed
        = true := by
  intro parse g b0 b1 b2 b3 rest rest2 st wst hbad
  have hw := winReadLoop_violation parse g b0 b1 b2 b3 rest wst hbad
  refine ⟨?_, linuxReadLoop_violation parse g b0 b1 b2 b3 rest st hbad,
    linuxReadLoop_violation parse g b0 b1 b2 b3 rest2 st hbad, hw, ?_, rfl⟩
  · simp only [decodeFrame, if_pos hbad]
  · show (winReadLoop parse g (b0 :: b1 :: b2 :: b3 :: rest) wst).1
      = LoopExit.protocolViolation
    rw [hw]

/-- Claim C8, witness: the all-zero header (L equal 0) followed by junk
bytes, with a pressed key in the Windows state. -/
theorem claim_C8_wit :
    decodeFrame (0 :: 0 :: 0 :: 0 :: [7, 7]) = DecodeOutcome.violation (be32 0 0 0 0) ∧
    linuxReadLoop parseStub g1920 (0 :: 0 :: 0 :: 0 :: [7, 7]) ⟨[], 0⟩
      = (LoopExit.protocolViolation, ⟨[], 0⟩) ∧
    linuxReadLoop parseStub g1920 (0 :: 0 :: 0 :: 0 :: [9, 9, 9]) ⟨[], 0⟩
      = (LoopExit.protocolViolation, ⟨[], 0⟩) ∧
    winReadLoop parseStub g1920 (0 :: 0 :: 0 :: 0 :: [7, 7]) ⟨[30], 0⟩
      = (LoopExit.protocolViolation, ⟨[30], 0⟩) ∧
    (winSession parseStub g1920 (0 :: 0 :: 0 :: 0 :: [7, 7]) ⟨[30], 0⟩).exit
      = LoopExit.protocolViolation ∧
    (winSession parseStub g1920 (0 :: 0 :: 0 :: 0 :: [7, 7]) ⟨[30], 0⟩).socketClosed
      = true :=
  claim_C8_thm parseStub g1920 0 0 0 0 [7, 7] [9, 9, 9] ⟨[], 0⟩ ⟨[30], 0⟩ (by decide)

/-- For an event whose type is not mouseMove, the Linux dispatcher
returns the pair false and 0. -/
theorem linuxInject_nonMove (g : Geom) (e : EventDict)
    (h : e.type ≠ some "mouseMove") :
    (linuxInject g e).2 = (false, 0) := by
  unfold linuxInject
  rw [if_neg h]
  split_ifs <;> try rfl
  all_goals
    cases e.keyCode with
    | none => rfl
    | some mac =>
      dsimp only
      cases List.lookup mac MAC_TO_LINUX_KEYCODE with
      | none => rfl
      | some code => rfl

/-- For an event whose type is not mouseMove, the Windows dispatcher
returns the pair false and 0. -/
theorem winInject_nonMove (g : Geom) (pressed : List ℤ) (e : EventDict)
    (h : e.type ≠ some "mouseMove") :
    (winInject g pressed e).2.2 = (false, 0) := by
  unfold winInject
  rw [if_neg h]
  split_ifs <;> try rfl
  all_goals
    cases e.keyCode with
    | none => rfl
    | some mac =>
      dsimp only
      cases List.lookup mac MAC_TO_WIN_KEYCODE with
      | none => rfl
      | some code => rfl

/-- Claim C9, confirmed.  A keyDown or keyUp whose keyCode is absent,
or absent from the platform mapping table, performs no injection call
(at most a logged warning), leaves the pressed state unchanged, and
returns the neutral pair. -/
theorem claim_C9_thm :
    ∀ (g : Geom) (pressed : List ℤ) (e : EventDict),
      (e.type = some "keyDown" ∨ e.type = some "keyUp") →
      (e.keyCode = none ∨
        (∃ mac, e.keyCode = some mac ∧
          List.lookup mac MAC_TO_LINUX_KEYCODE = none ∧
          List.lookup mac MAC_TO_WIN_KEYCODE = none)) →
      (∀ c ∈ (linuxInject g e).1, c = LinCall.logWarning) ∧
      (linuxInject g e).2 = (false, 0) ∧
      (winInject g pressed e).1 = pressed ∧
      (∀ c ∈ (winInject g pressed e).2.1, c = WinCall.logWarning) ∧
      (winInject g pressed e).2.2 = (false, 0) := by
  intro g pressed e ht hk
  have hlin : ∀ mac, e.keyCode = some mac →
      List.lookup mac MAC_TO_LINUX_KEYCODE = none →
      linuxInject g e = ([LinCall.logWarning], false, 0) := by
    intro mac hmac hl
    unfold linuxInject
    rcases ht with h | h <;>
      · rw [h]
        simp only [Option.some.injEq, reduceCtorEq]
        rw [if_neg (by simp), if_neg (by simp), if_neg (by simp), if_neg (by simp),
          if_neg (by simp), if_pos (by simp), hmac]
        dsimp only
        rw [hl]
  have hlin0 : e.keyCode = none → linuxInject g e = ([], false, 0) := by
    intro hmac
    unfold linuxInject
    rcases ht with h | h <;>
      · rw [h]
        simp only [Option.some.injEq, reduceCtorEq]
        rw [if_neg (by simp), if_neg (by simp), if_neg (by simp), if_neg (by simp),
          if_neg (by simp), if_pos (by simp), hmac]
  have hwin : ∀ mac, e.keyCode = some mac →
      List.lookup mac MAC_TO_WIN_KEYCODE = none →
      winInject g pressed e = (pressed, [WinCall.logWarning], false, 0) := by
    intro mac hmac hl
    unfold winInject
    rcases ht with h | h <;>
      · rw [h]
        simp only [Option.some.injEq, reduceCtorEq]
        rw [if_neg (by simp), if_neg (by simp), if_neg (by simp), if_neg (by simp),
          if_neg (by simp), if_pos (by simp), hmac]
        dsimp only
        rw [hl]
  have hwin0 : e.keyCode = none → winInject g pressed e = (pressed, [], false, 0) := by
    intro hmac
    unfold winInject
    rcases ht with h | h <;>
      · rw [h]
        simp only [Option.some.injEq, reduceCtorEq]
        rw [if_neg (by simp), if_neg (by simp), if_neg (by simp), if_neg (by simp),
          if_neg (by simp), if_pos (by simp), hmac]
  rcases hk with hk | ⟨mac, hmac, hl1, hl2⟩
  · rw [hlin0 hk, hwin0 hk]
    refine ⟨?_, rfl, rfl, ?_, rfl⟩
    · intro c hc; cases hc
    · intro c hc; cases hc
  · rw [hlin mac hmac hl1, hwin mac hmac hl2]
    refine ⟨?_, rfl, rfl, ?_, rfl⟩
    · intro c hc
      simp only [List.mem_singleton] at hc
      exact hc
    · intro c hc
      simp only [List.mem_singleton] at hc
      exact hc

/-- Claim C9, witness: keyDown of keycode 9999, which neither table
maps, against a Windows pressed set holding key 30. -/
theorem claim_C9_wit :
    (∀ c ∈ (linuxInject g1920 keyDown9999Event).1, c = LinCall.logWarning) ∧
    (linuxInject g1920 keyDown9999Event).2 = (false, 0) ∧
    (winInject g1920 [30] keyDown9999Event).1 = [30] ∧
    (∀ c ∈ (winInject g1920 [30] keyDown9999Event).2.1, c = WinCall.logWarning) ∧
    (winInject g1920 [30] keyDown9999Event).2.2 = (false, 0) :=
  claim_C9_thm g1920 [30] keyDown9999Event (Or.inl rfl)
    (Or.inr ⟨9999, rfl, rfl, rfl⟩)

/-- Claim C10, confirmed.  Only a mouseMove can make inject_event ask
the read loop for a returnControl: on both platforms the returned flag
is true only when the type discriminator is mouseMove, and any other
type yields the neutral pair false and 0. -/
theorem claim_C10_thm :
    ∀ (g : Geom) (pressed : List ℤ) (e : EventDict),
      ((linuxInject g e).2.1 = true → e.type = some "mouseMove") ∧
      ((winInject g pressed e).2.2.1 = true → e.type = some "mouseMove") ∧
      (e.type ≠ some "mouseMove" →
        (linuxInject g e).2 = (false, 0) ∧
        (winInject g pressed e).2.2 = (false, 0)) := by
  intro g pressed e
  refine ⟨?_, ?_,
    fun h => ⟨linuxInject_nonMove g e h, winInject_nonMove g pressed e h⟩⟩
  · intro hf
    by_contra hne
    have hval := congrArg Prod.fst (linuxInject_nonMove g e hne)
    simp only [] at hval
    rw [hval] at hf
    cases hf
  · intro hf
    by_contra hne
    have hval := congrArg Prod.fst (winInject_nonMove g pressed e hne)
    simp only [] at hval
    rw [hval] at hf
    cases hf

/-- Claim C10, witness: the scrollWheel and returnControl events yield
the neutral pair, and the handback flag of the edge mouseMove indeed
comes with the mouseMove type. -/
theorem claim_C10_wit :
    (linuxInject g1920 returnEvent).2 = (false, 0) ∧
    (winInject g1920 [] returnEvent).2.2 = (false, 0) ∧
    ((linuxInject g1920 edgeMoveEvent).2.1 = true →
      edgeMoveEvent.type = some "mouseMove") :=
  ⟨((claim_C10_thm g1920 [] returnEvent).2.2 (by decide)).1,
   ((claim_C10_thm g1920 [] returnEvent).2.2 (by decide)).2,
   (claim_C10_thm g1920 [] edgeMoveEvent).1⟩

end MouseShare
